import Mathlib

/-!
Shallow embedding of the JWT authentication subsystem of the repository
(auth controller `register` / `login` / `refresh` / `logout`, the token
issuer `generateToken`, and the access-token verification middleware
`authMiddleware`), together with theorems settling the specification
claims about it.

Modelling conventions:
* A signed JWT is modelled structurally as a `Token` record carrying the
  payload fields the code embeds (`userId`, `timestamp`), the absolute
  expiry second the library derives from `expiresIn`, and the secret it
  was signed with (standing for the signature).  Two JWT strings are
  byte-identical iff payload, expiry and signing secret coincide, so
  string equality on tokens is structural equality on `Token`.
* A token string presented by a client is a `Presented`: either garbage
  (`malformed`) or an actual signed token (`signed`).
* Time is an explicit parameter `now` in milliseconds (`Date.now()`);
  the JWT library works in whole seconds (`now / 1000`).
* The Mongo persistence layer is a list of `User` records; reads and
  read-modify-write updates are explicit and infallible.
-/

namespace Auth

/-- A signed JWT, identified up to byte-equality by its payload
(`userId`, `timestamp`), its absolute expiry second, and the secret it
was signed with. -/
structure Token where
  userId : String
  timestamp : Nat
  exp : Nat
  secret : String
deriving DecidableEq, Repr

/-- A token string presented by a client: either a string that does not
decode as a JWT at all, or a genuine signed token. -/
inductive Presented where
  | malformed (raw : String)
  | signed (t : Token)
deriving DecidableEq, Repr

/-- Failure modes of `jwt.verify`: `TokenExpiredError` for an expired
token, plain `JsonWebTokenError` for a malformed token or a wrong
signature. -/
inductive JwtError where
  | invalid
  | expired
deriving DecidableEq, Repr

/-- Embeds `jwt.verify(token, secret)`: signature (and decodability) is checked
first, then expiry against the current whole second. -/
def jwtVerify (p : Presented) (secret : String) (now : Nat) : Except JwtError Token :=
  match p with
  | .malformed _ => .error .invalid
  | .signed t =>
      if t.secret ≠ secret then .error .invalid
      else if t.exp ≤ now / 1000 then .error .expired
      else .ok t

/-- The pair returned by `generateToken`. -/
structure Tokens where
  token : Token
  refreshToken : Token
deriving DecidableEq, Repr

/-- Embeds `generateToken(userId)`: the access token carries
`timestamp = Date.now()`, the refresh token `timestamp = Date.now() + 1`;
expiries are `expiresIn` seconds from the current second.  The signing
secret must be configured (`getSecret` throws otherwise); that failure is
modelled by the caller checking the `Option` before calling this pure
variant. -/
def generateToken (userId : String) (secret : String) (now : Nat)
    (exp refreshexp : Nat) : Tokens :=
  { token := { userId := userId, timestamp := now,
               exp := now / 1000 + exp, secret := secret }
    refreshToken := { userId := userId, timestamp := now + 1,
                      exp := now / 1000 + refreshexp, secret := secret } }

/-- An opaque bcrypt hash value.  The hash is one-way and injective per
plaintext; it is modelled abstractly by a value remembering the salt and
the plaintext it was derived from (the model never inspects `plain`
except through `bcryptCompare`). -/
structure Hashed where
  salt : String
  plain : String
deriving DecidableEq, Repr

/-- Embeds `bcrypt.hash(password, salt)`. -/
def bcryptHash (password salt : String) : Hashed :=
  { salt := salt, plain := password }

/-- Embeds `bcrypt.compare(plaintext, hash)`: succeeds iff the hash was
produced from this plaintext (under the salt stored with it). -/
def bcryptCompare (password : String) (hash : Hashed) : Bool :=
  hash.plain = password

/-- A persisted user record.  Modelled from the spec: the user schema
file under `src/` omits the ledger field, but the data model of the spec (and
the controller code, which reads and writes `user.refreshToken` as an
ordered array of token strings) gives the user a refresh-token ledger. -/
structure User where
  id : String
  username : String
  email : String
  password : Hashed
  refreshToken : List Token
deriving DecidableEq, Repr

/-- The view of the persistence layer: the users collection. -/
abbrev Db := List User

/-- Embeds `UserModel.findById`. -/
def findById (db : Db) (uid : String) : Option User :=
  db.find? (fun u => u.id = uid)

/-- Embeds `UserModel.findOne({ email })`. -/
def findByEmail (db : Db) (email : String) : Option User :=
  db.find? (fun u => u.email = email)

/-- Embeds `UserModel.findOne` with the email-or-username filter. -/
def findByEmailOrUsername (db : Db) (email username : String) : Option User :=
  db.find? (fun u => u.email = email || u.username = username)

/-- Persist a new value for the ledger of one user (`user.save()` /
`findByIdAndUpdate`): a single-document update keyed by id. -/
def setLedger (db : Db) (uid : String) (ledger : List Token) : Db :=
  db.map (fun u => if u.id = uid then { u with refreshToken := ledger } else u)

/-- A controller response: tokens (register 201 / login, refresh 200), a
success message (logout 200), or the `{ error: message }` body of `sendError`. -/
inductive Response where
  | tokens (status : Nat) (body : Tokens)
  | message (status : Nat) (msg : String)
  | error (status : Nat) (msg : String)
deriving DecidableEq, Repr

/-- JavaScript falsiness of a required string field: absent or empty. -/
def falsy : Option String → Bool
  | none => true
  | some s => s = ""

/-- Falsiness of the presented refresh-token body field. -/
def falsyTok : Option Presented → Bool
  | none => true
  | some (.malformed s) => s = ""
  | some (.signed _) => false

/-- Static configuration: `JWT_SECRET` (absent unless configured),
`JWT_EXPIRES_IN` (default 3600) and `JWT_REFRESH_EXPIRES_IN`
(default 86400). -/
structure Config where
  secret : Option String
  expiresIn : Nat := 3600
  refreshExpiresIn : Nat := 86400
deriving Repr

/-- Embeds `AuthController.register`.  `newId` is the fresh Mongo id the
`create` call assigns.  Returns the HTTP response and the database after
the call. -/
def register (cfg : Config) (now : Nat) (db : Db) (newId : String)
    (username email password : Option String) : Response × Db :=
  if falsy username || falsy email || falsy password then
    (.error 401 "Username, email and password are required", db)
  else
    let username := username.getD ""
    let email := email.getD ""
    let password := password.getD ""
    match findByEmailOrUsername db email username with
    | some _ => (.error 409 "User with this email or username already exists", db)
    | none =>
        let hashed := bcryptHash password "salt10"
        let user : User := { id := newId, username := username, email := email,
                             password := hashed, refreshToken := [] }
        let db1 : Db := db ++ [user]
        match cfg.secret with
        | none =>
            -- `generateToken` throws inside the try block; the catch
            -- reports the thrown message with the default 400 status.
            (.error 400 "JWT_SECRET environment variable is not defined", db1)
        | some secret =>
            let tokens := generateToken newId secret now cfg.expiresIn cfg.refreshExpiresIn
            let db2 := setLedger db1 newId [tokens.refreshToken]
            (.tokens 201 tokens, db2)

/-- Embeds `AuthController.login`. -/
def login (cfg : Config) (now : Nat) (db : Db)
    (email password : Option String) : Response × Db :=
  if falsy email || falsy password then
    (.error 400 "Email and password are required", db)
  else
    let email := email.getD ""
    let password := password.getD ""
    match findByEmail db email with
    | none => (.error 400 "Invalid email or password", db)
    | some user =>
        if ¬ bcryptCompare password user.password then
          (.error 400 "Invalid email or password", db)
        else
          match cfg.secret with
          | none =>
              -- `generateToken` throws; the catch reports "Login failed".
              (.error 400 "Login failed", db)
          | some secret =>
              let tokens := generateToken user.id secret now cfg.expiresIn cfg.refreshExpiresIn
              let db1 := setLedger db user.id (user.refreshToken ++ [tokens.refreshToken])
              (.tokens 200 tokens, db1)

/-- Embeds `AuthController.refresh`. -/
def refresh (cfg : Config) (now : Nat) (db : Db)
    (body : Option Presented) : Response × Db :=
  if falsyTok body then
    (.error 401 "Refresh token is required", db)
  else
    match cfg.secret with
    | none =>
        -- `getSecret` throws; the catch reports "Invalid refresh token".
        (.error 401 "Invalid refresh token", db)
    | some secret =>
        match jwtVerify (body.getD (.malformed "")) secret now with
        | .error _ => (.error 401 "Invalid refresh token", db)
        | .ok t =>
            match findById db t.userId with
            | none => (.error 401 "Invalid refresh token", db)
            | some user =>
                if t ∉ user.refreshToken then
                  -- breach response: clear the whole ledger
                  (.error 401 "Invalid refresh token", setLedger db user.id [])
                else
                  let tokens := generateToken user.id secret now cfg.expiresIn cfg.refreshExpiresIn
                  let newLedger :=
                    (user.refreshToken.filter (fun rt => rt ≠ t)) ++ [tokens.refreshToken]
                  (.tokens 200 tokens, setLedger db user.id newLedger)

/-- Embeds `AuthController.logout`: the error thrown by `getSecret` is not a
`JsonWebTokenError`, so the catch reports it as "Logout failed" 500;
`jwt.verify` failures (expired included) are `JsonWebTokenError`s. -/
def logout (cfg : Config) (now : Nat) (db : Db)
    (body : Option Presented) : Response × Db :=
  if falsyTok body then
    (.error 401 "Refresh token is required", db)
  else
    match cfg.secret with
    | none => (.error 500 "Logout failed", db)
    | some secret =>
        match jwtVerify (body.getD (.malformed "")) secret now with
        | .error _ => (.error 401 "Invalid refresh token", db)
        | .ok t =>
            match findById db t.userId with
            | none => (.error 401 "Invalid refresh token", db)
            | some user =>
                if t ∉ user.refreshToken then
                  (.error 401 "Invalid refresh token", db)
                else
                  let newLedger := user.refreshToken.filter (fun rt => rt ≠ t)
                  (.message 200 "Logged out successfully", setLedger db user.id newLedger)

/-- Outcome of the middleware: a 401 JSON error, or `next()` with
`req.userId` set. -/
inductive MwOutcome where
  | reject (status : Nat) (msg : String)
  | next (userId : String)
deriving DecidableEq, Repr

/-- The verification stage of `authMiddleware` (`post_routes.ts`): the
secret falls back to the literal `"secretkey"` when `JWT_SECRET` is
unset, and expiry is reported distinctly from other invalidity. -/
def verifyAccessToken (secretCfg : Option String) (now : Nat)
    (tok : Presented) : MwOutcome :=
  let secret := secretCfg.getD "secretkey"
  match jwtVerify tok secret now with
  | .error .expired => .reject 401 "Access denied. Token expired."
  | .error .invalid => .reject 401 "Access denied. Invalid token."
  | .ok decoded => .next decoded.userId

/-- The whole `authMiddleware`: header parsing on the raw string, then
verification.  `decode` stands for JWT string decoding (base64 parsing
plus signature material), mapping the `<token>` part of the header to
what it presents. -/
def authMiddleware (decode : String → Presented) (secretCfg : Option String)
    (now : Nat) (authHeader : Option String) : MwOutcome :=
  match authHeader with
  | none => .reject 401 "Access denied. No token provided."
  | some h =>
      let parts := h.splitOn " "
      if parts.length ≠ 2 ∨ parts.headD "" ≠ "Bearer" then
        .reject 401 "Access denied. Invalid token format."
      else
        verifyAccessToken secretCfg now (decode (parts.getD 1 ""))

/-!
## Helper lemmas
-/

lemma findById_id {db : Db} {uid : String} {u : User} (h : findById db uid = some u) :
    u.id = uid := by
  have := List.find?_some h
  simpa using this

lemma findById_setLedger (db : Db) (uid : String) (L : List Token) :
    findById (setLedger db uid L) uid =
      (findById db uid).map (fun u => { u with refreshToken := L }) := by
  induction db with
  | nil => rfl
  | cons u rest ih =>
      by_cases h : u.id = uid
      · simp [findById, setLedger, List.find?_cons, h]
      · simp only [findById, setLedger, List.map_cons] at *
        rw [if_neg h]
        rw [List.find?_cons_of_neg, List.find?_cons_of_neg] <;> simp [h, ih]

lemma findById_append_right {db : Db} {uid : String} (h : findById db uid = none)
    (u : User) (hu : u.id = uid) : findById (db ++ [u]) uid = some u := by
  unfold findById at *
  rw [List.find?_append, h]
  simp [hu]

/-- On the happy path (secret configured, signature valid, unexpired,
user found, token in the ledger) `refresh` rotates: it removes every
occurrence of the presented token, appends the freshly minted refresh
token, and returns the new pair with status 200. -/
lemma refresh_success {cfg : Config} {s : String} {now : Nat} {db : Db}
    {t : Token} {u : User}
    (hs : cfg.secret = some s) (hsec : t.secret = s) (hexp : now / 1000 < t.exp)
    (hu : findById db t.userId = some u) (hmem : t ∈ u.refreshToken) :
    refresh cfg now db (some (.signed t)) =
      (.tokens 200 (generateToken u.id s now cfg.expiresIn cfg.refreshExpiresIn),
       setLedger db u.id ((u.refreshToken.filter (fun rt => rt ≠ t)) ++
         [(generateToken u.id s now cfg.expiresIn cfg.refreshExpiresIn).refreshToken])) := by
  have hexpn : ¬ (t.exp ≤ now / 1000) := by omega
  simp [refresh, falsyTok, hs, jwtVerify, hsec, hexpn, hu, hmem]

/-- On the breach path (structurally valid token, user found, token not
in the ledger) `refresh` clears the whole ledger and reports the generic
invalid-token error. -/
lemma refresh_breach {cfg : Config} {s : String} {now : Nat} {db : Db}
    {t : Token} {u : User}
    (hs : cfg.secret = some s) (hsec : t.secret = s) (hexp : now / 1000 < t.exp)
    (hu : findById db t.userId = some u) (hmem : t ∉ u.refreshToken) :
    refresh cfg now db (some (.signed t)) =
      (.error 401 "Invalid refresh token", setLedger db u.id []) := by
  have hexpn : ¬ (t.exp ≤ now / 1000) := by omega
  simp [refresh, falsyTok, hs, jwtVerify, hsec, hexpn, hu, hmem]

/-!
## Claim theorems
-/

/-- C9: for every userId and every invocation of token-pair issuance,
the issued-at marker embedded in the access token differs from the
marker embedded in the refresh token, so the two tokens returned by one
call are never byte-identical, even when minted at the same instant. -/
theorem claim9_distinct_pair_markers (userId secret : String) (now e re : Nat) :
    (generateToken userId secret now e re).token.timestamp ≠
      (generateToken userId secret now e re).refreshToken.timestamp ∧
    (generateToken userId secret now e re).token ≠
      (generateToken userId secret now e re).refreshToken := by
  constructor
  · simp [generateToken]
  · intro h
    have := congrArg Token.timestamp h
    simp [generateToken] at this

/-- C2: if refresh is called with a token that is cryptographically
valid and unexpired, whose embedded userId names an existing user, but
which is not present in the ledger of that user, then the entire ledger
of that user is set to empty (invalidating all other active tokens) and
the call fails with the invalid-token error. -/
theorem claim2_breach_clears_ledger (cfg : Config) (s : String) (now : Nat) (db : Db)
    (t : Token) (u : User)
    (hs : cfg.secret = some s) (hsec : t.secret = s) (hexp : now / 1000 < t.exp)
    (hu : findById db t.userId = some u) (hmem : t ∉ u.refreshToken) :
    refresh cfg now db (some (.signed t)) =
      (.error 401 "Invalid refresh token", setLedger db u.id []) ∧
    findById (refresh cfg now db (some (.signed t))).2 t.userId =
      some { u with refreshToken := [] } := by
  have hid := findById_id hu
  have h1 := refresh_breach hs hsec hexp hu hmem
  refine ⟨h1, ?_⟩
  rw [h1]
  simp only
  rw [hid, findById_setLedger, hu]
  simp [hid]

/-- Witness for C2: a concrete structurally valid token that is not in
the ledger of its owner empties that ledger and is rejected. -/
theorem claim2_breach_clears_ledger_witness :
    refresh { secret := some "s" } 0
        [{ id := "u1", username := "alice", email := "a@b.c", password := { salt := "p", plain := "pw" },
           refreshToken := [{ userId := "u1", timestamp := 1, exp := 86400, secret := "s" }] }]
        (some (.signed { userId := "u1", timestamp := 9, exp := 86400, secret := "s" })) =
      (.error 401 "Invalid refresh token",
       [{ id := "u1", username := "alice", email := "a@b.c", password := { salt := "p", plain := "pw" },
          refreshToken := [] }]) ∧
    findById
      (refresh { secret := some "s" } 0
        [{ id := "u1", username := "alice", email := "a@b.c", password := { salt := "p", plain := "pw" },
           refreshToken := [{ userId := "u1", timestamp := 1, exp := 86400, secret := "s" }] }]
        (some (.signed { userId := "u1", timestamp := 9, exp := 86400, secret := "s" }))).2
      "u1" =
      some { id := "u1", username := "alice", email := "a@b.c", password := { salt := "p", plain := "pw" },
             refreshToken := [] } := by
  have h := claim2_breach_clears_ledger { secret := some "s" } "s" 0
    [{ id := "u1", username := "alice", email := "a@b.c", password := { salt := "p", plain := "pw" },
       refreshToken := [{ userId := "u1", timestamp := 1, exp := 86400, secret := "s" }] }]
    { userId := "u1", timestamp := 9, exp := 86400, secret := "s" }
    { id := "u1", username := "alice", email := "a@b.c", password := { salt := "p", plain := "pw" },
      refreshToken := [{ userId := "u1", timestamp := 1, exp := 86400, secret := "s" }] }
    rfl rfl (by decide) (by decide) (by decide)
  exact h

/-- C6: a successful logout removes exactly the occurrences of the
presented token from the ledger of its owner (a filter, leaving every
other entry and their relative order unchanged), while logout with a
structurally valid token absent from the ledger fails with the
invalid-token error and leaves the database untouched. -/
theorem claim6_logout_narrow (cfg : Config) (s : String) (now : Nat) (db : Db)
    (t : Token) (u : User)
    (hs : cfg.secret = some s) (hsec : t.secret = s) (hexp : now / 1000 < t.exp)
    (hu : findById db t.userId = some u) :
    (t ∈ u.refreshToken →
      logout cfg now db (some (.signed t)) =
        (.message 200 "Logged out successfully",
         setLedger db u.id (u.refreshToken.filter (fun rt => rt ≠ t))) ∧
      findById (logout cfg now db (some (.signed t))).2 t.userId =
        some { u with refreshToken := u.refreshToken.filter (fun rt => rt ≠ t) }) ∧
    (t ∉ u.refreshToken →
      logout cfg now db (some (.signed t)) =
        (.error 401 "Invalid refresh token", db)) := by
  have hid := findById_id hu
  have hexpn : ¬ (t.exp ≤ now / 1000) := by omega
  constructor
  · intro hmem
    have h1 : logout cfg now db (some (.signed t)) =
        (.message 200 "Logged out successfully",
         setLedger db u.id (u.refreshToken.filter (fun rt => rt ≠ t))) := by
      simp [logout, falsyTok, hs, jwtVerify, hsec, hexpn, hu, hmem]
    refine ⟨h1, ?_⟩
    rw [h1]
    simp only
    rw [hid, findById_setLedger, hu]
    simp [hid]
  · intro hmem
    simp [logout, falsyTok, hs, jwtVerify, hsec, hexpn, hu, hmem]

/-- Witness for C6: with a two-token ledger, logging out the first token
leaves exactly the second; logging out a token not in the ledger fails
and changes nothing. -/
theorem claim6_logout_narrow_witness :
    (logout { secret := some "s" } 0
        [{ id := "u1", username := "alice", email := "a@b.c", password := { salt := "p", plain := "pw" },
           refreshToken := [{ userId := "u1", timestamp := 1, exp := 86400, secret := "s" },
                            { userId := "u1", timestamp := 5, exp := 86400, secret := "s" }] }]
        (some (.signed { userId := "u1", timestamp := 1, exp := 86400, secret := "s" })) =
      (.message 200 "Logged out successfully",
       [{ id := "u1", username := "alice", email := "a@b.c", password := { salt := "p", plain := "pw" },
          refreshToken := [{ userId := "u1", timestamp := 5, exp := 86400, secret := "s" }] }])) ∧
    (logout { secret := some "s" } 0
        [{ id := "u1", username := "alice", email := "a@b.c", password := { salt := "p", plain := "pw" },
           refreshToken := [{ userId := "u1", timestamp := 1, exp := 86400, secret := "s" },
                            { userId := "u1", timestamp := 5, exp := 86400, secret := "s" }] }]
        (some (.signed { userId := "u1", timestamp := 9, exp := 86400, secret := "s" })) =
      (.error 401 "Invalid refresh token",
       [{ id := "u1", username := "alice", email := "a@b.c", password := { salt := "p", plain := "pw" },
          refreshToken := [{ userId := "u1", timestamp := 1, exp := 86400, secret := "s" },
                           { userId := "u1", timestamp := 5, exp := 86400, secret := "s" }] }])) := by
  constructor
  · exact ((claim6_logout_narrow { secret := some "s" } "s" 0 _
      { userId := "u1", timestamp := 1, exp := 86400, secret := "s" }
      { id := "u1", username := "alice", email := "a@b.c", password := { salt := "p", plain := "pw" },
        refreshToken := [{ userId := "u1", timestamp := 1, exp := 86400, secret := "s" },
                         { userId := "u1", timestamp := 5, exp := 86400, secret := "s" }] }
      rfl rfl (by decide) (by decide)).1 (by decide)).1
  · exact (claim6_logout_narrow { secret := some "s" } "s" 0 _
      { userId := "u1", timestamp := 9, exp := 86400, secret := "s" }
      { id := "u1", username := "alice", email := "a@b.c", password := { salt := "p", plain := "pw" },
        refreshToken := [{ userId := "u1", timestamp := 1, exp := 86400, secret := "s" },
                         { userId := "u1", timestamp := 5, exp := 86400, secret := "s" }] }
      rfl rfl (by decide) (by decide)).2 (by decide)

/-- C8: login with a non-existent email and login with an existing email
plus a wrong password return textually identical error responses, so the
two causes are indistinguishable to the caller. -/
theorem claim8_generic_credential_failure (cfg : Config) (now : Nat) (db : Db)
    (e1 p1 e2 p2 : String) (u : User)
    (he1 : e1 ≠ "") (hp1 : p1 ≠ "") (he2 : e2 ≠ "") (hp2 : p2 ≠ "")
    (hno : findByEmail db e1 = none)
    (hu : findByEmail db e2 = some u)
    (hbad : bcryptCompare p2 u.password = false) :
    login cfg now db (some e1) (some p1) = (.error 400 "Invalid email or password", db) ∧
    login cfg now db (some e2) (some p2) = (.error 400 "Invalid email or password", db) := by
  constructor
  · simp [login, falsy, he1, hp1, hno]
  · simp [login, falsy, he2, hp2, hu, hbad]

/-- Witness for C8: a concrete store where the unknown-email failure and
the wrong-password failure coincide. -/
theorem claim8_generic_credential_failure_witness :
    login { secret := some "s" } 0
        [{ id := "u1", username := "alice", email := "a@b.c", password := { salt := "p", plain := "pw" },
           refreshToken := [] }] (some "nobody@b.c") (some "pw") =
      (.error 400 "Invalid email or password",
       [{ id := "u1", username := "alice", email := "a@b.c", password := { salt := "p", plain := "pw" },
          refreshToken := [] }]) ∧
    login { secret := some "s" } 0
        [{ id := "u1", username := "alice", email := "a@b.c", password := { salt := "p", plain := "pw" },
           refreshToken := [] }] (some "a@b.c") (some "wrong") =
      (.error 400 "Invalid email or password",
       [{ id := "u1", username := "alice", email := "a@b.c", password := { salt := "p", plain := "pw" },
          refreshToken := [] }]) := by
  exact claim8_generic_credential_failure { secret := some "s" } 0 _
    "nobody@b.c" "pw" "a@b.c" "wrong"
    { id := "u1", username := "alice", email := "a@b.c", password := { salt := "p", plain := "pw" },
      refreshToken := [] }
    (by decide) (by decide) (by decide) (by decide) (by decide) (by decide) (by decide)

/-- C5: for every call to register, login, refresh, or logout in which
a required field is missing or empty, the operation returns the
validation error and leaves the persistence layer (every user record and
ledger) unchanged. -/
theorem claim5_validation_touches_no_state (cfg : Config) (now : Nat) (db : Db)
    (newId : String) (username email password : Option String)
    (body : Option Presented) :
    ((falsy username || falsy email || falsy password) = true →
      register cfg now db newId username email password =
        (.error 401 "Username, email and password are required", db)) ∧
    ((falsy email || falsy password) = true →
      login cfg now db email password =
        (.error 400 "Email and password are required", db)) ∧
    (falsyTok body = true →
      refresh cfg now db body = (.error 401 "Refresh token is required", db)) ∧
    (falsyTok body = true →
      logout cfg now db body = (.error 401 "Refresh token is required", db)) := by
  refine ⟨fun h => ?_, fun h => ?_, fun h => ?_, fun h => ?_⟩
  · simp [register, h]
  · simp [login, h]
  · simp [refresh, h]
  · simp [logout, h]

/-- Witness for C5: an empty email field and a missing refresh-token
body yield the validation errors and an unchanged (empty) store for all
four operations. -/
theorem claim5_validation_touches_no_state_witness :
    register { secret := some "s" } 0 [] "id1" (some "bob") (some "") (some "pw") =
      (.error 401 "Username, email and password are required", []) ∧
    login { secret := some "s" } 0 [] (some "") (some "pw") =
      (.error 400 "Email and password are required", []) ∧
    refresh { secret := some "s" } 0 [] none =
      (.error 401 "Refresh token is required", []) ∧
    logout { secret := some "s" } 0 [] none =
      (.error 401 "Refresh token is required", []) := by
  have h := claim5_validation_touches_no_state { secret := some "s" } 0 [] "id1"
    (some "bob") (some "") (some "pw") none
  exact ⟨h.1 (by decide), h.2.1 (by decide), h.2.2.1 (by decide), h.2.2.2 (by decide)⟩

/-- C7: on the refresh path a malformed token, a wrong signature and an
expired token all produce the same invalid-token response, while the
access-token verification middleware answers an expired token with a
distinct message from other cryptographic invalidity. -/
theorem claim7_expiry_distinction (cfg : Config) (s : String) (now : Nat) (db : Db)
    (raw : String) (t1 t2 ta tb : Token)
    (hs : cfg.secret = some s) (hraw : raw ≠ "")
    (h1 : t1.secret ≠ s)
    (h2s : t2.secret = s) (h2e : t2.exp ≤ now / 1000)
    (has : ta.secret = s) (hae : ta.exp ≤ now / 1000)
    (hbs : tb.secret ≠ s) :
    refresh cfg now db (some (.malformed raw)) =
      (.error 401 "Invalid refresh token", db) ∧
    refresh cfg now db (some (.signed t1)) =
      (.error 401 "Invalid refresh token", db) ∧
    refresh cfg now db (some (.signed t2)) =
      (.error 401 "Invalid refresh token", db) ∧
    verifyAccessToken (some s) now (.signed ta) =
      .reject 401 "Access denied. Token expired." ∧
    verifyAccessToken (some s) now (.signed tb) =
      .reject 401 "Access denied. Invalid token." ∧
    ("Access denied. Token expired." : String) ≠ "Access denied. Invalid token." := by
  refine ⟨?_, ?_, ?_, ?_, ?_, by decide⟩
  · simp [refresh, falsyTok, hraw, hs, jwtVerify]
  · simp [refresh, falsyTok, hs, jwtVerify, h1]
  · simp [refresh, falsyTok, hs, jwtVerify, h2s, h2e]
  · simp [verifyAccessToken, jwtVerify, has, hae]
  · simp [verifyAccessToken, jwtVerify, hbs]

/-- Witness for C7: concrete garbage, wrong-signature and expired tokens
on the refresh path all get the one generic answer; the middleware
separates the expired case from the wrong-signature case. -/
theorem claim7_expiry_distinction_witness :
    refresh { secret := some "s" } 7000000 [] (some (.malformed "garbage")) =
      (.error 401 "Invalid refresh token", []) ∧
    refresh { secret := some "s" } 7000000 []
        (some (.signed { userId := "u1", timestamp := 1, exp := 86400, secret := "x" })) =
      (.error 401 "Invalid refresh token", []) ∧
    refresh { secret := some "s" } 7000000 []
        (some (.signed { userId := "u1", timestamp := 1, exp := 100, secret := "s" })) =
      (.error 401 "Invalid refresh token", []) ∧
    verifyAccessToken (some "s") 7000000
        (.signed { userId := "u1", timestamp := 0, exp := 100, secret := "s" }) =
      .reject 401 "Access denied. Token expired." ∧
    verifyAccessToken (some "s") 7000000
        (.signed { userId := "u1", timestamp := 0, exp := 86400, secret := "x" }) =
      .reject 401 "Access denied. Invalid token." ∧
    ("Access denied. Token expired." : String) ≠ "Access denied. Invalid token." := by
  exact claim7_expiry_distinction { secret := some "s" } "s" 7000000 [] "garbage"
    { userId := "u1", timestamp := 1, exp := 86400, secret := "x" }
    { userId := "u1", timestamp := 1, exp := 100, secret := "s" }
    { userId := "u1", timestamp := 0, exp := 100, secret := "s" }
    { userId := "u1", timestamp := 0, exp := 86400, secret := "x" }
    rfl (by decide) (by decide) rfl (by decide) rfl (by decide) (by decide)

/-- A concrete configuration with signing secret `"s"`, used by the
concrete counterexamples below. -/
def cfgS : Config := { secret := some "s" }

/-- A refresh token as minted by `generateToken "u1" "s" 0`: issued-at
marker `0 + 1`, expiry `0 / 1000 + 86400`. -/
def rA : Token := { userId := "u1", timestamp := 1, exp := 86400, secret := "s" }

/-- A user owning exactly the ledger `[rA]`. -/
def uA : User :=
  { id := "u1", username := "alice", email := "a@b.c",
    password := { salt := "p", plain := "pw" }, refreshToken := [rA] }

/-- Counterexample to C1 as stated: `rA` is exactly the refresh token
`generateToken` mints at millisecond 0, so a refresh at millisecond 0
reissues a byte-identical token and puts it back in the ledger; the same
token string then succeeds a second time.  Two `refresh(T)` calls with
the same `T` both succeed, refuting at-most-one-success. -/
theorem claim1_counterexample :
    (refresh cfgS 0 [uA] (some (.signed rA))).1 =
      .tokens 200 { token := { userId := "u1", timestamp := 0, exp := 3600, secret := "s" },
                    refreshToken := rA } ∧
    (refresh cfgS 0 (refresh cfgS 0 [uA] (some (.signed rA))).2 (some (.signed rA))).1 =
      .tokens 200 { token := { userId := "u1", timestamp := 0, exp := 3600, secret := "s" },
                    refreshToken := rA } := by
  decide

/-- C1 (amended): provided the successful refresh does not occur at the
very millisecond the token was minted (so the replacement differs from
the consumed token), a second refresh presenting the same still-unexpired
token fails with the invalid-token error and clears the entire ledger of
the owner. -/
theorem claim1_single_use_rotation (cfg : Config) (s : String) (now1 now2 : Nat)
    (db : Db) (t : Token) (u : User)
    (hs : cfg.secret = some s) (hsec : t.secret = s)
    (hexp1 : now1 / 1000 < t.exp) (hexp2 : now2 / 1000 < t.exp)
    (hu : findById db t.userId = some u) (hmem : t ∈ u.refreshToken)
    (hts : t.timestamp ≠ now1 + 1) :
    (refresh cfg now1 db (some (.signed t))).1 =
      .tokens 200 (generateToken u.id s now1 cfg.expiresIn cfg.refreshExpiresIn) ∧
    refresh cfg now2 (refresh cfg now1 db (some (.signed t))).2 (some (.signed t)) =
      (.error 401 "Invalid refresh token",
       setLedger (refresh cfg now1 db (some (.signed t))).2 u.id []) ∧
    findById
      (refresh cfg now2 (refresh cfg now1 db (some (.signed t))).2 (some (.signed t))).2
      t.userId = some { u with refreshToken := [] } := by
  have hid := findById_id hu
  have hne : t ≠ (generateToken u.id s now1 cfg.expiresIn cfg.refreshExpiresIn).refreshToken := by
    intro h
    apply hts
    have := congrArg Token.timestamp h
    simpa [generateToken] using this
  have hstep := refresh_success hs hsec hexp1 hu hmem
  have hfind2 : findById (setLedger db u.id
      ((u.refreshToken.filter (fun rt => rt ≠ t)) ++
        [(generateToken u.id s now1 cfg.expiresIn cfg.refreshExpiresIn).refreshToken]))
      t.userId =
      some { u with refreshToken :=
        (u.refreshToken.filter (fun rt => rt ≠ t)) ++
          [(generateToken u.id s now1 cfg.expiresIn cfg.refreshExpiresIn).refreshToken] } := by
    rw [← hid, findById_setLedger, hid, hu]
    simp [hid]
  have hnotmem : t ∉ (u.refreshToken.filter (fun rt => rt ≠ t)) ++
      [(generateToken u.id s now1 cfg.expiresIn cfg.refreshExpiresIn).refreshToken] := by
    simp [List.mem_append, List.mem_filter, hne]
  have hbreach := refresh_breach hs hsec hexp2 hfind2 hnotmem
  refine ⟨by rw [hstep], ?_, ?_⟩
  · rw [hstep]
    exact hbreach
  · rw [hstep]
    simp only
    rw [hbreach]
    simp only
    rw [← hid, findById_setLedger]
    rw [← hid] at hfind2
    rw [hfind2]
    rfl

/-- Witness for the amended C1: a refresh at millisecond 1000 of a token
minted at millisecond 0 rotates it, and replaying the consumed token
fails and empties the ledger. -/
theorem claim1_single_use_rotation_witness :
    (refresh cfgS 1000 [uA] (some (.signed rA))).1 =
      .tokens 200 (generateToken "u1" "s" 1000 3600 86400) ∧
    refresh cfgS 1000 (refresh cfgS 1000 [uA] (some (.signed rA))).2 (some (.signed rA)) =
      (.error 401 "Invalid refresh token",
       setLedger (refresh cfgS 1000 [uA] (some (.signed rA))).2 "u1" []) ∧
    findById
      (refresh cfgS 1000 (refresh cfgS 1000 [uA] (some (.signed rA))).2
        (some (.signed rA))).2 "u1" =
      some { id := "u1", username := "alice", email := "a@b.c",
             password := { salt := "p", plain := "pw" }, refreshToken := [] } := by
  exact claim1_single_use_rotation cfgS "s" 1000 1000 [uA] rA uA
    rfl rfl (by decide) (by decide) (by decide) (by decide) (by decide)

/-- Counterexample to C3 as stated: at the millisecond the token was
minted, a successful refresh returns a refresh token byte-identical to
the presented one, refuting the distinctness of rotation. -/
theorem claim3_counterexample :
    (refresh cfgS 0 [uA] (some (.signed rA))).1 =
      .tokens 200 { token := { userId := "u1", timestamp := 0, exp := 3600, secret := "s" },
                    refreshToken := rA } ∧
    (generateToken "u1" "s" 0 3600 86400).refreshToken = rA := by
  decide

/-- C3 (amended): a successful refresh at a millisecond other than the
one the presented token was minted at returns a distinct refresh token,
and the resulting ledger is the old ledger with every occurrence of the
presented token removed and the new refresh token appended at the end. -/
theorem claim3_rotation_distinct (cfg : Config) (s : String) (now : Nat) (db : Db)
    (t : Token) (u : User)
    (hs : cfg.secret = some s) (hsec : t.secret = s) (hexp : now / 1000 < t.exp)
    (hu : findById db t.userId = some u) (hmem : t ∈ u.refreshToken)
    (hts : t.timestamp ≠ now + 1) :
    (refresh cfg now db (some (.signed t))).1 =
      .tokens 200 (generateToken u.id s now cfg.expiresIn cfg.refreshExpiresIn) ∧
    (generateToken u.id s now cfg.expiresIn cfg.refreshExpiresIn).refreshToken ≠ t ∧
    findById (refresh cfg now db (some (.signed t))).2 t.userId =
      some { u with refreshToken :=
        (u.refreshToken.filter (fun rt => rt ≠ t)) ++
          [(generateToken u.id s now cfg.expiresIn cfg.refreshExpiresIn).refreshToken] } := by
  have hid := findById_id hu
  have hne : (generateToken u.id s now cfg.expiresIn cfg.refreshExpiresIn).refreshToken ≠ t := by
    intro h
    apply hts
    have := congrArg Token.timestamp h
    simpa [generateToken] using this.symm
  have hstep := refresh_success hs hsec hexp hu hmem
  refine ⟨by rw [hstep], hne, ?_⟩
  rw [hstep]
  simp only
  rw [← hid, findById_setLedger, hid, hu]
  simp [hid]

/-- Witness for the amended C3: refreshing at millisecond 1000 a token
minted at millisecond 0 returns a different refresh token and rotates
the ledger. -/
theorem claim3_rotation_distinct_witness :
    (refresh cfgS 1000 [uA] (some (.signed rA))).1 =
      .tokens 200 (generateToken "u1" "s" 1000 3600 86400) ∧
    (generateToken "u1" "s" 1000 3600 86400).refreshToken ≠ rA ∧
    findById (refresh cfgS 1000 [uA] (some (.signed rA))).2 "u1" =
      some { id := "u1", username := "alice", email := "a@b.c",
             password := { salt := "p", plain := "pw" },
             refreshToken := [(generateToken "u1" "s" 1000 3600 86400).refreshToken] } := by
  exact claim3_rotation_distinct cfgS "s" 1000 [uA] rA uA
    rfl rfl (by decide) (by decide) (by decide) (by decide)

/-- Counterexample to C4 as stated: with no signing secret configured,
the protected-endpoint middleware does not fail with a configuration
error — it verifies against the built-in default secret `"secretkey"`
and proceeds, accepting a token signed with that default. -/
theorem claim4_counterexample :
    verifyAccessToken none 0
      (.signed { userId := "u1", timestamp := 0, exp := 100, secret := "secretkey" }) =
      .next "u1" := by
  decide

/-- C4 (amended): with no signing secret configured, token-pair issuance
makes register, login and refresh fail (register surfaces the
configuration-error message, login and refresh remap it to their generic
failure messages), but the protected-endpoint middleware does not fail:
it behaves exactly as if the literal secret `"secretkey"` were
configured. -/
theorem claim4_no_secret_behaviour (cfg : Config) (now : Nat) (db : Db)
    (newId : String) (un1 em1 pw1 em2 pw2 : String) (u2 : User) (t : Token)
    (hsec : cfg.secret = none)
    (hun1 : un1 ≠ "") (hem1 : em1 ≠ "") (hpw1 : pw1 ≠ "")
    (hnoconf : findByEmailOrUsername db em1 un1 = none)
    (hem2 : em2 ≠ "") (hpw2 : pw2 ≠ "")
    (hu2 : findByEmail db em2 = some u2)
    (hpwok : bcryptCompare pw2 u2.password = true) :
    (register cfg now db newId (some un1) (some em1) (some pw1)).1 =
      .error 400 "JWT_SECRET environment variable is not defined" ∧
    (login cfg now db (some em2) (some pw2)).1 = .error 400 "Login failed" ∧
    refresh cfg now db (some (.signed t)) =
      (.error 401 "Invalid refresh token", db) ∧
    verifyAccessToken none now (.signed t) =
      verifyAccessToken (some "secretkey") now (.signed t) := by
  refine ⟨?_, ?_, ?_, rfl⟩
  · simp [register, falsy, hun1, hem1, hpw1, hnoconf, hsec]
  · simp [login, falsy, hem2, hpw2, hu2, hpwok, hsec]
  · simp [refresh, falsyTok, hsec]

/-- Witness for the amended C4: with the secret unset, register, login
and refresh all fail on concrete inputs and the middleware accepts a
default-secret token. -/
theorem claim4_no_secret_behaviour_witness :
    (register { secret := none } 0
      [{ id := "u1", username := "alice", email := "a@b.c",
         password := { salt := "p", plain := "pw" }, refreshToken := [] }]
      "id2" (some "bob") (some "b@b.c") (some "pw")).1 =
      .error 400 "JWT_SECRET environment variable is not defined" ∧
    (login { secret := none } 0
      [{ id := "u1", username := "alice", email := "a@b.c",
         password := { salt := "p", plain := "pw" }, refreshToken := [] }]
      (some "a@b.c") (some "pw")).1 = .error 400 "Login failed" ∧
    refresh { secret := none } 0
      [{ id := "u1", username := "alice", email := "a@b.c",
         password := { salt := "p", plain := "pw" }, refreshToken := [] }]
      (some (.signed { userId := "u1", timestamp := 0, exp := 100, secret := "secretkey" })) =
      (.error 401 "Invalid refresh token",
       [{ id := "u1", username := "alice", email := "a@b.c",
          password := { salt := "p", plain := "pw" }, refreshToken := [] }]) ∧
    verifyAccessToken none 0
      (.signed { userId := "u1", timestamp := 0, exp := 100, secret := "secretkey" }) =
      verifyAccessToken (some "secretkey") 0
        (.signed { userId := "u1", timestamp := 0, exp := 100, secret := "secretkey" }) := by
  exact claim4_no_secret_behaviour { secret := none } 0
    [{ id := "u1", username := "alice", email := "a@b.c",
       password := { salt := "p", plain := "pw" }, refreshToken := [] }]
    "id2" "bob" "b@b.c" "pw" "a@b.c" "pw"
    { id := "u1", username := "alice", email := "a@b.c",
      password := { salt := "p", plain := "pw" }, refreshToken := [] }
    { userId := "u1", timestamp := 0, exp := 100, secret := "secretkey" }
    rfl (by decide) (by decide) (by decide) (by decide) (by decide) (by decide)
    (by decide) (by decide)

/-- C10: if register passes validation and the uniqueness check and
creates the user record, but token issuance then fails because the
signing secret is unset, register reports the error while the newly
created user record — with an empty refresh-token ledger — remains
persisted. -/
theorem claim10_register_partial_persist (cfg : Config) (now : Nat) (db : Db)
    (newId : String) (un em pw : String)
    (hsec : cfg.secret = none)
    (hun : un ≠ "") (hem : em ≠ "") (hpw : pw ≠ "")
    (hnoconf : findByEmailOrUsername db em un = none)
    (hfresh : findById db newId = none) :
    register cfg now db newId (some un) (some em) (some pw) =
      (.error 400 "JWT_SECRET environment variable is not defined",
       db ++ [{ id := newId, username := un, email := em,
                password := bcryptHash pw "salt10", refreshToken := [] }]) ∧
    findById (register cfg now db newId (some un) (some em) (some pw)).2 newId =
      some { id := newId, username := un, email := em,
             password := bcryptHash pw "salt10", refreshToken := [] } := by
  have h1 : register cfg now db newId (some un) (some em) (some pw) =
      (.error 400 "JWT_SECRET environment variable is not defined",
       db ++ [{ id := newId, username := un, email := em,
                password := bcryptHash pw "salt10", refreshToken := [] }]) := by
    simp [register, falsy, hun, hem, hpw, hnoconf, hsec]
  refine ⟨h1, ?_⟩
  rw [h1]
  exact findById_append_right hfresh _ rfl

/-- Witness for C10: on an empty store with the secret unset, register
reports the configuration error yet the user record is persisted with an
empty ledger. -/
theorem claim10_register_partial_persist_witness :
    register { secret := none } 0 [] "id1" (some "bob") (some "b@b.c") (some "pw") =
      (.error 400 "JWT_SECRET environment variable is not defined",
       [{ id := "id1", username := "bob", email := "b@b.c",
          password := bcryptHash "pw" "salt10", refreshToken := [] }]) ∧
    findById (register { secret := none } 0 [] "id1"
        (some "bob") (some "b@b.c") (some "pw")).2 "id1" =
      some { id := "id1", username := "bob", email := "b@b.c",
             password := bcryptHash "pw" "salt10", refreshToken := [] } := by
  exact claim10_register_partial_persist { secret := none } 0 [] "id1" "bob" "b@b.c" "pw"
    rfl (by decide) (by decide) (by decide) (by decide) (by decide)

end Auth
